import Mathlib

/-!
Verification of the DWM3001CDK positioning example against its specification.

This file shallowly embeds the positioning core of
`python_wrapper/example_usage.py`: the `DistanceCollector` windowed distance
aggregator, the per-line measurement parsing of `_read_output`, and the
two-beacon trilateration of `PositionCalculator.calculate_position`.

Timestamps and distances of the aggregator are modelled over an arbitrary
linear ordered field (instantiated at `ℚ` for concrete evaluation and at `ℝ`
for the end-to-end scenario); the trilateration solver is modelled over `ℝ`
with `Real.sqrt` standing for `math.sqrt`.  Python lists of
`(timestamp, distance)` tuples become `List (α × α)` with append at the tail,
exactly as the source appends; the `while ... pop(0)` eviction loop becomes a
structural recursion dropping from the head.
-/

namespace DWM

/-- Configuration constants of `example_usage.py` (lines 21-25). -/
def BEACON1_POSITION : ℝ × ℝ := (0, 0)

/-- Beacon 2 fixed position, `example_usage.py` line 22. -/
def BEACON2_POSITION : ℝ × ℝ := (2, 0)

/-- `REPORT_INTERVAL_SECONDS = 2.0`, line 23. -/
def REPORT_INTERVAL_SECONDS : ℚ := 2

/-- `DISTANCE_TIMEOUT_SECONDS = 5.0`, line 24. -/
def DISTANCE_TIMEOUT_SECONDS : ℚ := 5

/-- `AVERAGING_WINDOW_SECONDS = 2.0`, line 25. -/
def AVERAGING_WINDOW_SECONDS : ℚ := 2

/-- Data state of `DistanceCollector` (`example_usage.py` lines 31-38): the
averaging window and the two per-beacon lists of `(timestamp, distance)`
tuples.  The transport fields (`port`, `running`, `process`, `thread`) are
I/O handles with no effect on the data semantics and are not modelled. -/
structure DistanceCollector (α : Type) where
  averaging_window : α
  beacon1_distances : List (α × α)
  beacon2_distances : List (α × α)
deriving DecidableEq

variable {α : Type} [LinearOrderedField α]

/-- Embeds `DistanceCollector._cleanup_old_measurements` (lines 125-129):
`cutoff_time = current_time - averaging_window`; pop from the front while the
front element's timestamp is `< cutoff_time`. -/
def cleanup_old_measurements (w : α) : List (α × α) → α → List (α × α)
  | [], _ => []
  | s :: rest, current_time =>
    if s.1 < current_time - w then cleanup_old_measurements w rest current_time
    else s :: rest

/-- Embeds `DistanceCollector._add_distance_measurement` (lines 116-123):
append the `(timestamp, distance)` tuple to the selected beacon list, then run
the cleanup against that same timestamp.  Any `beacon_num` other than 1 or 2
leaves the state unchanged. -/
def add_distance_measurement (c : DistanceCollector α) (timestamp : α)
    (beacon_num : ℕ) (distance : α) : DistanceCollector α :=
  if beacon_num = 1 then
    let l :=
      cleanup_old_measurements c.averaging_window
        (c.beacon1_distances ++ [(timestamp, distance)]) timestamp
    { c with beacon1_distances := l }
  else if beacon_num = 2 then
    let l :=
      cleanup_old_measurements c.averaging_window
        (c.beacon2_distances ++ [(timestamp, distance)]) timestamp
    { c with beacon2_distances := l }
  else c

/-- The body of `DistanceCollector.get_averaged_distance` after the beacon
list has been selected (lines 142-158): clean up against the query time,
return `none` on an empty list, `none` when the latest remaining timestamp is
older than the timeout, otherwise the arithmetic mean of the remaining
distances.  `timeout` stands for the global `DISTANCE_TIMEOUT_SECONDS`. -/
def averaged_from (timeout w : α) (distance_list : List (α × α)) (current_time : α) :
    Option α :=
  let cleaned := cleanup_old_measurements w distance_list current_time
  match cleaned.getLast? with
  | none => none
  | some latest =>
    if timeout < current_time - latest.1 then none
    else if 0 < cleaned.length then
      some ((cleaned.map Prod.snd).sum / (cleaned.length : α))
    else none

/-- Embeds `DistanceCollector.get_averaged_distance` (lines 131-158):
select the beacon list (returning `none` for an unknown beacon number), then
run `averaged_from` at the query time. -/
def get_averaged_distance (timeout : α) (c : DistanceCollector α)
    (beacon_num : ℕ) (current_time : α) : Option α :=
  if beacon_num = 1 then
    averaged_from timeout c.averaging_window c.beacon1_distances current_time
  else if beacon_num = 2 then
    averaged_from timeout c.averaging_window c.beacon2_distances current_time
  else none

/-- Embeds `DistanceCollector.get_measurement_count` (lines 160-167): the raw
length of the stored list — note the source performs no cleanup here. -/
def get_measurement_count (c : DistanceCollector α) (beacon_num : ℕ) : ℕ :=
  if beacon_num = 1 then c.beacon1_distances.length
  else if beacon_num = 2 then c.beacon2_distances.length
  else 0

/-- The data initialisation of `DistanceCollector.__init__` (lines 31-38),
modelled fallibly to record that the source performs no validation of the
averaging window: it unconditionally succeeds with empty beacon lists. -/
def mk_distance_collector (averaging_window : α) :
    Except String (DistanceCollector α) :=
  Except.ok { averaging_window := averaging_window
              beacon1_distances := []
              beacon2_distances := [] }

/-- A fresh collector state with the given averaging window. -/
def initial_collector (averaging_window : α) : DistanceCollector α :=
  { averaging_window := averaging_window
    beacon1_distances := []
    beacon2_distances := [] }

/-- Record a whole sequence of `(timestamp, distance)` samples for one beacon,
in order, via `add_distance_measurement`. -/
def recordAll (beacon_num : ℕ) (c : DistanceCollector α)
    (samples : List (α × α)) : DistanceCollector α :=
  samples.foldl (fun c s => add_distance_measurement c s.1 beacon_num s.2) c

/-- Follows the words of claim C1: the arithmetic mean of the recorded
distances whose timestamp lies in the half-open interval
`(now − averaging_window, now]`, or `none` when no sample lies there. -/
def mean_in_open_window (samples : List (α × α)) (w now : α) : Option α :=
  let inWindow := samples.filter (fun s => decide (now - w < s.1 ∧ s.1 ≤ now))
  if inWindow = [] then none
  else some ((inWindow.map Prod.snd).sum / (inWindow.length : α))

/-- The amended window characterisation: the arithmetic mean of the recorded
distances whose timestamp lies in the closed interval
`[now − averaging_window, now]`, or `none` when no sample lies there. -/
def mean_in_closed_window (samples : List (α × α)) (w now : α) : Option α :=
  let inWindow := samples.filter (fun s => decide (now - w ≤ s.1 ∧ s.1 ≤ now))
  if inWindow = [] then none
  else some ((inWindow.map Prod.snd).sum / (inWindow.length : α))

/-- The beacon list that `get_averaged_distance` selects for a beacon number
(`[]` for a number the source would reject with an early `return None`). -/
def beaconList (c : DistanceCollector α) (beacon_num : ℕ) : List (α × α) :=
  if beacon_num = 1 then c.beacon1_distances
  else if beacon_num = 2 then c.beacon2_distances
  else []

/-- The samples surviving eviction relative to the most recently recorded
timestamp: the state the stored beacon list is left in after a sequence of
`record` calls with non-decreasing timestamps. -/
def evicted_at_last (w : α) (samples : List (α × α)) : List (α × α) :=
  match samples.getLast? with
  | none => []
  | some b => samples.filter (fun s => decide (b.1 - w ≤ s.1))

/-- One parsed entry of the `results` array of a device output line: the
optional `Status`, `D_cm` and `Addr` fields (absent field = `none`). -/
structure RangingResult where
  status : Option String
  d_cm : Option ℚ
  addr : Option String

/-- A line of tag-device output, as seen by `DistanceCollector._read_output`
after transport framing: either not JSON at all, or JSON without a `results`
key, or JSON carrying a `results` array. -/
inductive DeviceLine where
  | notJson : DeviceLine
  | jsonNoResults : DeviceLine
  | jsonResults : List RangingResult → DeviceLine

/-- The per-entry body of `_read_output`'s inner loop (lines 89-107): record
a measurement only when `Status == "Ok"` and both `D_cm` and `Addr` are
present, converting centimeters to meters and mapping address `0x0001` to
beacon 1 and `0x0002` to beacon 2; anything else leaves the state alone. -/
def process_result (timestamp : ℚ) (c : DistanceCollector ℚ) (result : RangingResult) :
    DistanceCollector ℚ :=
  if result.status = some "Ok" then
    match result.d_cm, result.addr with
    | some distance_cm, some addr =>
      if addr = "0x0001" then
        add_distance_measurement c timestamp 1 (distance_cm / 100)
      else if addr = "0x0002" then
        add_distance_measurement c timestamp 2 (distance_cm / 100)
      else c
    | _, _ => c
  else c

/-- Embeds the per-line body of `DistanceCollector._read_output`
(lines 79-110): a non-JSON line or a JSON line without `results` is dropped;
a `results` array is folded entry by entry through `process_result`, with one
timestamp taken for the whole line. -/
def read_output_line (c : DistanceCollector ℚ) (timestamp : ℚ) (line : DeviceLine) :
    DistanceCollector ℚ :=
  match line with
  | DeviceLine.notJson => c
  | DeviceLine.jsonNoResults => c
  | DeviceLine.jsonResults results => results.foldl (process_result timestamp) c

/-- Follows the spec's words on the measurement stream: the usable samples of
a line are exactly the result entries with `Status == "Ok"` and a `D_cm`
field, whose address is `0x0001` (beacon 1) or `0x0002` (beacon 2); the
recorded distance in meters is `D_cm` divided by 100. -/
def spec_usable_samples (line : DeviceLine) : List (ℕ × ℚ) :=
  match line with
  | DeviceLine.jsonResults results =>
    results.filterMap (fun r =>
      match r.d_cm, r.addr with
      | some distance_cm, some addr =>
        if r.status = some "Ok" then
          if addr = "0x0001" then some (1, distance_cm / 100)
          else if addr = "0x0002" then some (2, distance_cm / 100)
          else none
        else none
      | _, _ => none)
  | _ => []

/-- Data state of `PositioningSystem` (lines 239-247): the tag's collector
and the calculator's two beacon positions; the two beacon subprocess handles
and ports are transport state and are not modelled. -/
structure PositioningSystem where
  tag_collector : DistanceCollector ℚ
  beacon1_pos : ℝ × ℝ
  beacon2_pos : ℝ × ℝ

/-- The data initialisation of `PositioningSystem.__init__` (lines 239-247),
modelled fallibly to record that the source performs no configuration
validation: it unconditionally succeeds, whatever the ports are. -/
def mk_positioning_system (tag_port beacon1_port beacon2_port : String) :
    Except String PositioningSystem :=
  Except.ok { tag_collector := initial_collector AVERAGING_WINDOW_SECONDS
              beacon1_pos := BEACON1_POSITION
              beacon2_pos := BEACON2_POSITION }

/-- The inter-beacon distance `d` of `calculate_position` (lines 198-202):
`abs(x2 - x1)` when the beacons share a `y` coordinate, the Euclidean
distance otherwise. -/
noncomputable def beacon_distance (p1 p2 : ℝ × ℝ) : ℝ :=
  if p1.2 = p2.2 then |p2.1 - p1.1|
  else Real.sqrt ((p2.1 - p1.1) ^ 2 + (p2.2 - p1.2) ^ 2)

/-- The quantity `A = (d² - dist2² + dist1²) / (2d)` of `calculate_position`
(line 206). -/
noncomputable def baseline_A (p1 p2 : ℝ × ℝ) (dist1 dist2 : ℝ) : ℝ :=
  (beacon_distance p1 p2 ^ 2 - dist2 ^ 2 + dist1 ^ 2) / (2 * beacon_distance p1 p2)

/-- The discriminant `dist1² - A²` of `calculate_position` (line 209). -/
noncomputable def solver_discriminant (p1 p2 : ℝ × ℝ) (dist1 dist2 : ℝ) : ℝ :=
  dist1 ^ 2 - baseline_A p1 p2 dist1 dist2 ^ 2

/-- Embeds `PositionCalculator.calculate_position` (lines 177-233) over `ℝ`,
with `Real.sqrt` for `math.sqrt`.  Non-positive distances are rejected; the
Python `ZeroDivisionError` raised for coincident beacons (`d == 0`) and
caught by the surrounding `except` is modelled as an explicit `none`; a
negative discriminant yields `none`; otherwise the solution is projected and
its `y` is forced non-negative exactly as in lines 215-229. -/
noncomputable def calculate_position (p1 p2 : ℝ × ℝ) (dist1 dist2 : ℝ) :
    Option (ℝ × ℝ) :=
  if dist1 ≤ 0 ∨ dist2 ≤ 0 then none
  else
    let d := beacon_distance p1 p2
    if d = 0 then none
    else
      let A := baseline_A p1 p2 dist1 dist2
      let disc := solver_discriminant p1 p2 dist1 dist2
      if disc < 0 then none
      else
        let H := Real.sqrt disc
        let x := A * (p2.1 - p1.1) / d + p1.1
        let y := if p1.2 = p2.2 then H else H * (p2.1 - p1.1) / d + p1.2
        some (x, if y < 0 then |y| else y)

/-- The collector state of the end-to-end scenario: one sample of distance
`√2` m recorded for each beacon at time 0, with the configured 2 s window. -/
noncomputable def end_to_end_state : DistanceCollector ℝ :=
  add_distance_measurement
    (add_distance_measurement (initial_collector 2) 0 1 (Real.sqrt 2))
    0 2 (Real.sqrt 2)

/-! ### Helper lemmas: eviction on timestamp-sorted sample lists -/

/-- Eviction only ever drops elements: its result is a sublist of the input. -/
theorem cleanup_sublist (w : α) (l : List (α × α)) (now : α) :
    (cleanup_old_measurements w l now).Sublist l := by
  induction l with
  | nil => exact List.Sublist.refl _
  | cons a t ih =>
    rw [cleanup_old_measurements]
    split
    · exact ih.trans (List.sublist_cons_self a t)
    · exact List.Sublist.refl _

/-- On a list with non-decreasing timestamps, the front-eviction loop keeps
exactly the samples with timestamp at least `now - w`. -/
theorem cleanup_eq_filter (w now : α) {l : List (α × α)}
    (h : l.Pairwise fun x y => x.1 ≤ y.1) :
    cleanup_old_measurements w l now
      = l.filter fun s => decide (now - w ≤ s.1) := by
  induction l with
  | nil => rfl
  | cons a t ih =>
    rw [List.pairwise_cons] at h
    by_cases hc : a.1 < now - w
    · rw [cleanup_old_measurements, if_pos hc, List.filter_cons, ih h.2,
        decide_eq_false (not_le.mpr hc)]
      simp
    · push_neg at hc
      rw [cleanup_old_measurements, if_neg (not_lt.mpr hc), List.filter_cons,
        decide_eq_true hc]
      simp only [if_true]
      rw [List.filter_eq_self.mpr]
      intro x hx
      exact decide_eq_true (hc.trans (h.1 x hx))

/-- A `getLast?` value is a member of the list. -/
theorem getLast?_mem' {β : Type} {l : List β} {b : β}
    (hb : l.getLast? = some b) : b ∈ l := by
  induction l using List.reverseRecOn with
  | nil => simp at hb
  | append_singleton l a _ =>
    rw [List.getLast?_concat] at hb
    cases hb
    exact List.mem_append_right l (List.mem_singleton_self b)

/-- On a list with non-decreasing timestamps, every timestamp is bounded by
the last one. -/
theorem ts_le_getLast {l : List (α × α)}
    (h : l.Pairwise fun x y => x.1 ≤ y.1)
    {b : α × α} (hb : l.getLast? = some b) : ∀ x ∈ l, x.1 ≤ b.1 := by
  induction l with
  | nil => simp at hb
  | cons a t ih =>
    rw [List.pairwise_cons] at h
    intro x hx
    cases t with
    | nil =>
      rw [List.getLast?_singleton] at hb
      cases hb
      rw [List.mem_singleton] at hx
      exact le_of_eq (congrArg Prod.fst hx)
    | cons a2 t2 =>
      rw [List.getLast?_cons_cons] at hb
      rcases List.mem_cons.mp hx with rfl | hx2
      · exact h.1 b (getLast?_mem' hb)
      · exact ih h.2 hb x hx2

/-- Filtering does not disturb the last element when the last element passes
the filter. -/
theorem getLast?_filter_of_last {p : α × α → Bool} {l : List (α × α)}
    {b : α × α} (hb : l.getLast? = some b) (hpb : p b = true) :
    (l.filter p).getLast? = some b := by
  induction l using List.reverseRecOn with
  | nil => simp at hb
  | append_singleton l a _ =>
    rw [List.getLast?_concat] at hb
    cases hb
    rw [List.filter_append]
    simp only [List.filter_cons, hpb, List.filter_nil, if_true]
    exact List.getLast?_concat _

/-- Recording for beacon 1 appends and evicts on the beacon-1 list. -/
theorem add_one_beacon1 (c : DistanceCollector α) (t d : α) :
    (add_distance_measurement c t 1 d).beacon1_distances
      = cleanup_old_measurements c.averaging_window
          (c.beacon1_distances ++ [(t, d)]) t := rfl

/-- Recording for beacon 1 leaves the averaging window unchanged. -/
theorem add_one_window (c : DistanceCollector α) (t d : α) :
    (add_distance_measurement c t 1 d).averaging_window = c.averaging_window := rfl

/-- Recording for beacon 1 leaves the beacon-2 list unchanged. -/
theorem add_one_beacon2 (c : DistanceCollector α) (t d : α) :
    (add_distance_measurement c t 1 d).beacon2_distances = c.beacon2_distances := rfl

/-- After a sequence of `record` calls for beacon 1 with non-decreasing
timestamps, the stored beacon-1 list holds exactly the samples within the
averaging window of the most recently recorded timestamp, the averaging
window is unchanged, and the beacon-2 list is untouched. -/
theorem recordAll_beacon1 (w : α) {samples : List (α × α)}
    (h : samples.Pairwise fun x y => x.1 ≤ y.1) :
    (recordAll 1 (initial_collector w) samples).beacon1_distances
        = evicted_at_last w samples
    ∧ (recordAll 1 (initial_collector w) samples).averaging_window = w
    ∧ (recordAll 1 (initial_collector w) samples).beacon2_distances = [] := by
  induction samples using List.reverseRecOn with
  | nil => exact ⟨rfl, rfl, rfl⟩
  | append_singleton l a ih =>
    have hl : l.Pairwise fun x y : α × α => x.1 ≤ y.1 :=
      List.Pairwise.sublist (List.sublist_append_left l [a]) h
    obtain ⟨ih1, ih2, ih3⟩ := ih hl
    have hstep : recordAll 1 (initial_collector w) (l ++ [a])
        = add_distance_measurement (recordAll 1 (initial_collector w) l) a.1 1 a.2 := by
      rw [recordAll, List.foldl_append]
      rfl
    have hcross : ∀ x ∈ l, x.1 ≤ a.1 := by
      intro x hx
      exact (List.pairwise_append.mp h).2.2 x hx a (List.mem_singleton_self a)
    refine ⟨?_, ?_, ?_⟩
    · rw [hstep, add_one_beacon1]
      rw [ih1, ih2, Prod.mk.eta]
      cases hl' : l.getLast? with
      | none =>
        rw [List.getLast?_eq_none_iff] at hl'
        subst hl'
        rw [evicted_at_last, evicted_at_last]
        simp only [List.getLast?_concat, List.nil_append]
        exact cleanup_eq_filter w a.1 (List.pairwise_singleton _ a)
      | some b =>
        have hba : b.1 ≤ a.1 := hcross b (getLast?_mem' hl')
        rw [evicted_at_last, hl']
        rw [evicted_at_last]
        simp only [List.getLast?_concat]
        have hsorted2 :
            (List.filter (fun s => decide (b.1 - w ≤ s.1)) l ++ [a]).Pairwise
              fun x y : α × α => x.1 ≤ y.1 := by
          rw [List.pairwise_append]
          refine ⟨List.Pairwise.sublist (List.filter_sublist l) hl,
            List.pairwise_singleton _ a, ?_⟩
          intro x hx y hy
          rw [List.mem_singleton] at hy
          subst hy
          exact hcross x (List.mem_of_mem_filter hx)
        rw [cleanup_eq_filter w a.1 hsorted2, List.filter_append, List.filter_append,
          List.filter_filter]
        congr 1
        apply List.filter_congr
        intro x hx
        by_cases hx2 : a.1 - w ≤ x.1
        · have hx1 : b.1 - w ≤ x.1 := le_trans (by linarith) hx2
          rw [decide_eq_true hx2, decide_eq_true hx1]
          rfl
        · rw [decide_eq_false hx2]
          rfl
    · rw [hstep, add_one_window]
      exact ih2
    · rw [hstep, add_one_beacon2]
      exact ih3

/-- Querying beacon 1 averages the beacon-1 list. -/
theorem get_one (timeout : α) (c : DistanceCollector α) (now : α) :
    get_averaged_distance timeout c 1 now
      = averaged_from timeout c.averaging_window c.beacon1_distances now := rfl

/-- Querying beacon 2 averages the beacon-2 list. -/
theorem get_two (timeout : α) (c : DistanceCollector α) (now : α) :
    get_averaged_distance timeout c 2 now
      = averaged_from timeout c.averaging_window c.beacon2_distances now := rfl

/-- The central query-side computation: on a recorded state built from
timestamp-sorted samples that all precede the query instant, with the latest
recorded sample fresh, the query returns the mean over the closed window
`[now - w, now]`. -/
theorem averaged_from_evicted (timeout w now : α) {samples : List (α × α)}
    (hsorted : samples.Pairwise fun x y => x.1 ≤ y.1)
    (hnow : ∀ s ∈ samples, s.1 ≤ now)
    (hfresh : ∀ b, samples.getLast? = some b → now - b.1 ≤ timeout) :
    averaged_from timeout w (evicted_at_last w samples) now
      = mean_in_closed_window samples w now := by
  cases hsl : samples.getLast? with
  | none =>
    rw [List.getLast?_eq_none_iff] at hsl
    subst hsl
    rfl
  | some b =>
    have hbmem : b ∈ samples := getLast?_mem' hsl
    have hbnow : b.1 ≤ now := hnow b hbmem
    have hev : evicted_at_last w samples
        = samples.filter fun s => decide (b.1 - w ≤ s.1) := by
      rw [evicted_at_last, hsl]
    have hsorted_ev : (samples.filter fun s => decide (b.1 - w ≤ s.1)).Pairwise
        fun x y : α × α => x.1 ≤ y.1 :=
      List.Pairwise.sublist (List.filter_sublist samples) hsorted
    have hclean : cleanup_old_measurements w (evicted_at_last w samples) now
        = samples.filter fun s => decide (now - w ≤ s.1) := by
      rw [hev, cleanup_eq_filter w now hsorted_ev, List.filter_filter]
      apply List.filter_congr
      intro x _
      by_cases hx2 : now - w ≤ x.1
      · have hx1 : b.1 - w ≤ x.1 := le_trans (by linarith) hx2
        rw [decide_eq_true hx2, decide_eq_true hx1]
        rfl
      · rw [decide_eq_false hx2]
        rfl
    have hW : (samples.filter fun s => decide (now - w ≤ s.1 ∧ s.1 ≤ now))
        = samples.filter fun s => decide (now - w ≤ s.1) := by
      apply List.filter_congr
      intro x hx
      by_cases hx2 : now - w ≤ x.1
      · rw [decide_eq_true hx2, decide_eq_true ⟨hx2, hnow x hx⟩]
      · rw [decide_eq_false hx2, decide_eq_false fun hc => hx2 hc.1]
    rw [averaged_from, mean_in_closed_window]
    simp only [hclean, hW]
    by_cases hF : (samples.filter fun s => decide (now - w ≤ s.1)) = []
    · rw [hF]
      rfl
    · have hFb : (samples.filter fun s => decide (now - w ≤ s.1)).getLast? = some b := by
        apply getLast?_filter_of_last hsl
        obtain ⟨x, hxmem⟩ := List.exists_mem_of_ne_nil _ hF
        rw [List.mem_filter] at hxmem
        have hxb : x.1 ≤ b.1 := ts_le_getLast hsorted hsl x hxmem.1
        exact decide_eq_true (le_trans (of_decide_eq_true hxmem.2) hxb)
      rw [hFb]
      simp only [if_neg hF]
      rw [if_neg (not_lt.mpr (hfresh b hsl)),
        if_pos (List.length_pos.mpr hF)]

/-- Claim C1: the window is in fact closed on the left.  For a sequence of
recorded samples with non-decreasing timestamps, all timestamps at most the
query instant, and the latest sample fresh enough to pass the staleness
check, `get_averaged_distance` returns the arithmetic mean of exactly the
recorded distances with timestamp in the closed interval
`[now - averaging_window, now]` (including `t = now - averaging_window`,
which the claim's half-open interval wrongly excludes), and `none` when no
sample lies in that interval. -/
theorem claim_C1_window_mean_closed (w timeout now : α) (samples : List (α × α))
    (hsorted : samples.Pairwise fun x y => x.1 ≤ y.1)
    (hnow : ∀ s ∈ samples, s.1 ≤ now)
    (hfresh : ∀ b, samples.getLast? = some b → now - b.1 ≤ timeout) :
    get_averaged_distance timeout (recordAll 1 (initial_collector w) samples) 1 now
      = mean_in_closed_window samples w now := by
  obtain ⟨h1, h2, _⟩ := recordAll_beacon1 w hsorted
  rw [get_one, h1, h2]
  exact averaged_from_evicted timeout w now hsorted hnow hfresh

/-- Claim C1, counterexample to the half-open window: with averaging window
2, a single sample at `t = 0` of 1 m, queried at `now = 2`, the code returns
the sample's value `1` (the boundary sample `t = now - window` is kept),
while the claimed interval `(now - window, now]` contains no sample, so the
claim demands "no data". -/
theorem claim_C1_counterexample :
    get_averaged_distance DISTANCE_TIMEOUT_SECONDS
        (recordAll 1 (initial_collector AVERAGING_WINDOW_SECONDS) [((0 : ℚ), 1)]) 1 2
      = some 1
    ∧ mean_in_open_window [((0 : ℚ), 1)] AVERAGING_WINDOW_SECONDS 2 = none := by
  constructor
  · norm_num [get_averaged_distance, averaged_from, recordAll, add_distance_measurement,
      cleanup_old_measurements, initial_collector, DISTANCE_TIMEOUT_SECONDS,
      AVERAGING_WINDOW_SECONDS]
  · norm_num [mean_in_open_window, AVERAGING_WINDOW_SECONDS]

/-- Claim C1, witness: the eviction scenario.  Window 2 s, samples at
`t = 0` (1 m), `t = 1` (1.2 m), `t = 2.1` (1.4 m), queried at `now = 2.1`:
the `t = 0` sample is excluded and the result is the mean 1.3 of the
remaining two. -/
theorem claim_C1_witness :
    get_averaged_distance (5 : ℚ)
        (recordAll 1 (initial_collector 2) [(0, 1), (1, 12/10), (21/10, 14/10)]) 1 (21/10)
      = mean_in_closed_window [((0 : ℚ), 1), (1, 12/10), (21/10, 14/10)] 2 (21/10)
    ∧ mean_in_closed_window [((0 : ℚ), 1), (1, 12/10), (21/10, 14/10)] 2 (21/10)
      = some (13/10) := by
  constructor
  · apply claim_C1_window_mean_closed
    · norm_num [List.pairwise_cons]
    · intro s hs
      fin_cases hs <;> norm_num
    · intro b hb
      simp only [List.getLast?_cons_cons, List.getLast?_singleton, Option.some.injEq] at hb
      rw [← hb]
      norm_num
  · norm_num [mean_in_closed_window]
    intro h
    simp at h

/-- If the last stored sample is older than the timeout and timestamps are
non-decreasing, the query returns `none` (through one branch or another). -/
theorem averaged_from_stale (timeout w now : α) {l : List (α × α)}
    (hsorted : l.Pairwise fun x y => x.1 ≤ y.1)
    {b : α × α} (hlast : l.getLast? = some b)
    (hstale : timeout < now - b.1) :
    averaged_from timeout w l now = none := by
  cases hcl : (cleanup_old_measurements w l now).getLast? with
  | none => simp [averaged_from, hcl]
  | some latest =>
    have hmem : latest ∈ l :=
      (cleanup_sublist w l now).mem (getLast?_mem' hcl)
    have hlb : latest.1 ≤ b.1 := ts_le_getLast hsorted hlast latest hmem
    have hlt : timeout < now - latest.1 := lt_of_lt_of_le hstale (by linarith)
    simp only [averaged_from, hcl, if_pos hlt]

/-- Claim C2 (amended): when the most recently recorded sample for a beacon
is older than the staleness timeout, `get_averaged_distance` returns `None` —
the *same* value as the empty-window "no data" result; the code offers no
distinguishable "stale" verdict. -/
theorem claim_C2_stale_returns_none (timeout : α) (c : DistanceCollector α)
    (beacon_num : ℕ) (now : α) (b : α × α)
    (hsorted : (beaconList c beacon_num).Pairwise fun x y => x.1 ≤ y.1)
    (hlast : (beaconList c beacon_num).getLast? = some b)
    (hstale : timeout < now - b.1) :
    get_averaged_distance timeout c beacon_num now = none := by
  by_cases h1 : beacon_num = 1
  · subst h1
    rw [get_one]
    exact averaged_from_stale timeout c.averaging_window now hsorted hlast hstale
  · by_cases h2 : beacon_num = 2
    · subst h2
      rw [get_two]
      exact averaged_from_stale timeout c.averaging_window now hsorted hlast hstale
    · simp [get_averaged_distance, h1, h2]

/-- Claim C2, counterexample to distinguishability: a beacon whose latest
sample (age 6 s, timeout 5 s) is stale yet still inside a 10 s averaging
window gets the result `none` — exactly the result an empty window gets, so
the "stale" verdict is not distinguishable from "no data". -/
theorem claim_C2_counterexample :
    get_averaged_distance DISTANCE_TIMEOUT_SECONDS
        (⟨10, [((0 : ℚ), 1)], []⟩ : DistanceCollector ℚ) 1 6 = none
    ∧ get_averaged_distance DISTANCE_TIMEOUT_SECONDS
        (initial_collector (10 : ℚ)) 1 6 = none := by
  constructor <;>
    norm_num [get_averaged_distance, averaged_from, cleanup_old_measurements,
      initial_collector, DISTANCE_TIMEOUT_SECONDS]

/-- Claim C2, witness: the stale-sample state satisfies the hypotheses of
`claim_C2_stale_returns_none` and therefore yields `none`. -/
theorem claim_C2_witness :
    (beaconList (⟨10, [((0 : ℚ), 1)], []⟩ : DistanceCollector ℚ) 1).getLast? = some (0, 1)
    ∧ DISTANCE_TIMEOUT_SECONDS < (6 : ℚ) - (0, (1 : ℚ)).1
    ∧ get_averaged_distance DISTANCE_TIMEOUT_SECONDS
        (⟨10, [((0 : ℚ), 1)], []⟩ : DistanceCollector ℚ) 1 6 = none := by
  refine ⟨rfl, by norm_num [DISTANCE_TIMEOUT_SECONDS], ?_⟩
  exact claim_C2_stale_returns_none DISTANCE_TIMEOUT_SECONDS _ 1 6 (0, 1)
    (List.pairwise_singleton _ _) rfl (by norm_num [DISTANCE_TIMEOUT_SECONDS])

/-- The measurement count for beacon 1 is the raw stored list length. -/
theorem count_one (c : DistanceCollector α) :
    get_measurement_count c 1 = c.beacon1_distances.length := rfl

/-- Claim C6 (amended): `get_measurement_count` returns the stored list
length, which is the post-eviction window size as of the *most recent record
operation*, not as of the query instant: after timestamp-sorted records it
counts exactly the samples within the averaging window of the last recorded
timestamp. -/
theorem claim_C6_count_at_last_record (w : α) (samples : List (α × α))
    (hsorted : samples.Pairwise fun x y => x.1 ≤ y.1) :
    get_measurement_count (recordAll 1 (initial_collector w) samples) 1
      = (evicted_at_last w samples).length := by
  obtain ⟨h1, _, _⟩ := recordAll_beacon1 w hsorted
  rw [count_one, h1]

/-- Claim C6, counterexample: one sample recorded at `t = 0` with window 2;
at query time 10 the sample has aged out (the average query returns `none`
and the would-be contributing set is empty), yet `get_measurement_count`
still returns 1 — it counts samples that have aged out of the window. -/
theorem claim_C6_counterexample :
    get_measurement_count (recordAll 1 (initial_collector (2 : ℚ)) [(0, 1)]) 1 = 1
    ∧ (cleanup_old_measurements (2 : ℚ)
        (recordAll 1 (initial_collector (2 : ℚ)) [(0, 1)]).beacon1_distances 10).length = 0
    ∧ get_averaged_distance DISTANCE_TIMEOUT_SECONDS
        (recordAll 1 (initial_collector (2 : ℚ)) [(0, 1)]) 1 10 = none := by
  refine ⟨?_, ?_, ?_⟩ <;>
    norm_num [get_measurement_count, recordAll, add_distance_measurement,
      cleanup_old_measurements, initial_collector, get_averaged_distance,
      averaged_from, DISTANCE_TIMEOUT_SECONDS]

/-- Claim C6, witness: in the eviction scenario the stored count after the
last record is 2, matching the samples within the window of the last
recorded timestamp. -/
theorem claim_C6_witness :
    get_measurement_count
        (recordAll 1 (initial_collector (2 : ℚ)) [(0, 1), (1, 12/10), (21/10, 14/10)]) 1
      = (evicted_at_last (2 : ℚ) [(0, 1), (1, 12/10), (21/10, 14/10)]).length
    ∧ (evicted_at_last (2 : ℚ) [((0 : ℚ), 1), (1, 12/10), (21/10, 14/10)]).length = 2 := by
  constructor
  · apply claim_C6_count_at_last_record
    norm_num [List.pairwise_cons]
  · norm_num [evicted_at_last, List.getLast?_cons_cons, List.getLast?_singleton]

/-- On a sorted list with window at most the timeout, the query returns
`none` exactly when eviction at the query instant leaves nothing. -/
theorem averaged_from_none_iff (timeout w now : α) {l : List (α × α)}
    (hsorted : l.Pairwise fun x y => x.1 ≤ y.1)
    (hw : w ≤ timeout) :
    averaged_from timeout w l now = none
      ↔ cleanup_old_measurements w l now = [] := by
  constructor
  · intro h
    by_contra hne
    cases hcl : (cleanup_old_measurements w l now).getLast? with
    | none => exact hne (List.getLast?_eq_none_iff.mp hcl)
    | some latest =>
      have hmem : latest ∈ cleanup_old_measurements w l now := getLast?_mem' hcl
      rw [cleanup_eq_filter w now hsorted] at hmem
      have hage : now - w ≤ latest.1 := of_decide_eq_true (List.mem_filter.mp hmem).2
      have hlen : 0 < (cleanup_old_measurements w l now).length :=
        List.length_pos.mpr hne
      simp only [averaged_from, hcl] at h
      rw [if_neg (not_lt.mpr (by linarith)), if_pos hlen] at h
      exact Option.some_ne_none _ h
  · intro h
    simp [averaged_from, h]

/-- The last survivor of eviction at the query instant has age at most the
averaging window (eviction is performed against the query instant). -/
theorem cleanup_age_bound (w now : α) {l : List (α × α)}
    (hsorted : l.Pairwise fun x y => x.1 ≤ y.1)
    {b : α × α} (hb : (cleanup_old_measurements w l now).getLast? = some b) :
    now - b.1 ≤ w := by
  have hmem : b ∈ cleanup_old_measurements w l now := getLast?_mem' hb
  rw [cleanup_eq_filter w now hsorted] at hmem
  have := of_decide_eq_true (List.mem_filter.mp hmem).2
  linarith

/-- Claim C10: freshness invariant making the staleness branch unreachable.
With timestamp-sorted samples and an averaging window at most the staleness
timeout (the configured 2 s vs 5 s in particular), `get_averaged_distance`
returns `none` exactly when eviction at the query instant empties the
window — the timeout check is never the cause of a `none` — and any sample
surviving eviction (in particular the latest contributing one) has age at
most the averaging window. -/
theorem claim_C10_staleness_unreachable (timeout : α) (c : DistanceCollector α)
    (beacon_num : ℕ) (now : α)
    (hsorted : (beaconList c beacon_num).Pairwise fun x y => x.1 ≤ y.1)
    (hw : c.averaging_window ≤ timeout) :
    (get_averaged_distance timeout c beacon_num now = none
       ↔ cleanup_old_measurements c.averaging_window (beaconList c beacon_num) now = [])
    ∧ ∀ b, (cleanup_old_measurements c.averaging_window (beaconList c beacon_num) now).getLast?
          = some b
        → now - b.1 ≤ c.averaging_window := by
  refine ⟨?_, fun b hb => cleanup_age_bound _ now hsorted hb⟩
  by_cases h1 : beacon_num = 1
  · subst h1
    rw [get_one]
    exact averaged_from_none_iff timeout c.averaging_window now hsorted hw
  · by_cases h2 : beacon_num = 2
    · subst h2
      rw [get_two]
      exact averaged_from_none_iff timeout c.averaging_window now hsorted hw
    · simp [get_averaged_distance, beaconList, h1, h2, cleanup_old_measurements]

/-- Claim C10, witness: with the configured window 2 s and timeout 5 s and a
fresh sample, the query result is `none` exactly when the evicted window is
empty (here: neither is the case). -/
theorem claim_C10_witness :
    AVERAGING_WINDOW_SECONDS ≤ DISTANCE_TIMEOUT_SECONDS
    ∧ (get_averaged_distance DISTANCE_TIMEOUT_SECONDS
          (⟨AVERAGING_WINDOW_SECONDS, [((0 : ℚ), 1)], []⟩ : DistanceCollector ℚ) 1 1 = none
        ↔ cleanup_old_measurements AVERAGING_WINDOW_SECONDS
            (beaconList (⟨AVERAGING_WINDOW_SECONDS, [((0 : ℚ), 1)], []⟩ : DistanceCollector ℚ) 1)
            1 = []) := by
  refine ⟨by norm_num [AVERAGING_WINDOW_SECONDS, DISTANCE_TIMEOUT_SECONDS], ?_⟩
  exact (claim_C10_staleness_unreachable DISTANCE_TIMEOUT_SECONDS
    (⟨AVERAGING_WINDOW_SECONDS, [((0 : ℚ), 1)], []⟩ : DistanceCollector ℚ) 1 1
    (List.pairwise_singleton _ _)
    (by norm_num [AVERAGING_WINDOW_SECONDS, DISTANCE_TIMEOUT_SECONDS])).1

/-- Claim C7: per-line filtering and unit conversion.  Processing any device
output line equals recording, in order, exactly the usable samples of the
line — the `Status == "Ok"` entries carrying `D_cm` and `Addr`, with
distance `D_cm / 100` meters, address `0x0001` mapped to beacon 1 and
`0x0002` to beacon 2; every other entry, and every non-JSON or wrongly
shaped line, is dropped with no error and no state change (an empty usable
list folds to the unchanged state). -/
theorem claim_C7_line_filtering (c : DistanceCollector ℚ) (t : ℚ) (line : DeviceLine) :
    read_output_line c t line
      = (spec_usable_samples line).foldl
          (fun c p => add_distance_measurement c t p.1 p.2) c := by
  cases line with
  | notJson => rfl
  | jsonNoResults => rfl
  | jsonResults results =>
    induction results generalizing c with
    | nil => rfl
    | cons r rest ih =>
      have hstep : read_output_line c t (DeviceLine.jsonResults (r :: rest))
          = read_output_line (process_result t c r) t (DeviceLine.jsonResults rest) := rfl
      rw [hstep, ih (process_result t c r)]
      obtain ⟨st, dc, ad⟩ := r
      by_cases hs : st = some "Ok"
      · subst hs
        cases dc with
        | none => simp [process_result, spec_usable_samples, List.filterMap_cons]
        | some dval =>
          cases ad with
          | none => simp [process_result, spec_usable_samples, List.filterMap_cons]
          | some addr =>
            by_cases h1 : addr = "0x0001"
            · subst h1
              simp [process_result, spec_usable_samples, List.filterMap_cons]
            · by_cases h2 : addr = "0x0002"
              · subst h2
                simp [process_result, spec_usable_samples, List.filterMap_cons, h1]
              · simp [process_result, spec_usable_samples, List.filterMap_cons, h1, h2]
      · cases dc with
        | none => simp [process_result, spec_usable_samples, List.filterMap_cons, hs]
        | some dval =>
          cases ad with
          | none => simp [process_result, spec_usable_samples, List.filterMap_cons, hs]
          | some addr =>
            simp [process_result, spec_usable_samples, List.filterMap_cons, hs]

/-- Claim C5 (amended): the constructors perform no configuration
validation.  `DistanceCollector.__init__` accepts any averaging window
(zero included) and always succeeds with empty beacon lists, and
`PositioningSystem.__init__` always succeeds, whatever the ports; invalid
configuration is not rejected at construction time. -/
theorem claim_C5_no_construction_validation :
    (∀ w : ℚ, mk_distance_collector w = Except.ok (initial_collector w))
    ∧ ∀ t b1 b2 : String, (mk_positioning_system t b1 b2).isOk = true :=
  ⟨fun _ => rfl, fun _ _ _ => rfl⟩

/-- Claim C5, counterexample: constructing a collector with a zero averaging
window — invalid configuration par excellence — does not fail with an
explicit error; it succeeds and returns a usable state. -/
theorem claim_C5_counterexample :
    mk_distance_collector (0 : ℚ) = Except.ok (initial_collector 0) := rfl

/-! ### Helper lemmas: the trilateration solver -/

/-- The inter-beacon distance is never negative. -/
theorem beacon_distance_nonneg (p1 p2 : ℝ × ℝ) : 0 ≤ beacon_distance p1 p2 := by
  rw [beacon_distance]
  split
  · exact abs_nonneg _
  · exact Real.sqrt_nonneg _

/-- For beacons sharing a `y` coordinate the code takes `|x2 - x1|`. -/
theorem beacon_distance_same_y (x1 x2 yb : ℝ) :
    beacon_distance (x1, yb) (x2, yb) = |x2 - x1| := by
  rw [beacon_distance]
  exact if_pos rfl

/-- The factorised discriminant identity of two-circle intersection: when the
product of the four baseline factors is positive, the discriminant is
negative (the circles do not intersect). -/
theorem disc_neg_of_factor_prod_pos (p1 p2 : ℝ × ℝ) (d1 d2 : ℝ)
    (hd : beacon_distance p1 p2 ≠ 0)
    (hprod : 0 < (beacon_distance p1 p2 - d1 - d2) * (beacon_distance p1 p2 - d1 + d2)
        * (beacon_distance p1 p2 + d1 - d2) * (beacon_distance p1 p2 + d1 + d2)) :
    solver_discriminant p1 p2 d1 d2 < 0 := by
  have key : solver_discriminant p1 p2 d1 d2 * (4 * beacon_distance p1 p2 ^ 2)
      = -((beacon_distance p1 p2 - d1 - d2) * (beacon_distance p1 p2 - d1 + d2)
          * (beacon_distance p1 p2 + d1 - d2) * (beacon_distance p1 p2 + d1 + d2)) := by
    rw [solver_discriminant, baseline_A]
    field_simp
    ring
  have hD2 : 0 < beacon_distance p1 p2 ^ 2 :=
    lt_of_le_of_ne (sq_nonneg _) (Ne.symm (pow_ne_zero 2 hd))
  by_contra hcon
  push_neg at hcon
  have hmul : 0 ≤ solver_discriminant p1 p2 d1 d2 * (4 * beacon_distance p1 p2 ^ 2) :=
    mul_nonneg hcon (by linarith)
  rw [key] at hmul
  linarith

/-- Solver evaluation for beacons on a common horizontal line `y = yb` and a
tag strictly above it: feeding the true distances returns the foot `x`
coordinate exactly and the height above the beacon line as `y` — the world
`y = py` itself only when `yb = 0`. -/
theorem calc_pos_same_y (x1 x2 yb px py : ℝ) (hx : x1 ≠ x2) (hpy : yb < py) :
    calculate_position (x1, yb) (x2, yb)
        (Real.sqrt ((px - x1) ^ 2 + (py - yb) ^ 2))
        (Real.sqrt ((px - x2) ^ 2 + (py - yb) ^ 2))
      = some (px, py - yb) := by
  have hq : 0 < (py - yb) ^ 2 := pow_pos (by linarith) 2
  have harg1 : 0 < (px - x1) ^ 2 + (py - yb) ^ 2 :=
    add_pos_of_nonneg_of_pos (sq_nonneg _) hq
  have harg2 : 0 < (px - x2) ^ 2 + (py - yb) ^ 2 :=
    add_pos_of_nonneg_of_pos (sq_nonneg _) hq
  have hd1pos : 0 < Real.sqrt ((px - x1) ^ 2 + (py - yb) ^ 2) := Real.sqrt_pos.mpr harg1
  have hd2pos : 0 < Real.sqrt ((px - x2) ^ 2 + (py - yb) ^ 2) := Real.sqrt_pos.mpr harg2
  have hd1sq : Real.sqrt ((px - x1) ^ 2 + (py - yb) ^ 2) ^ 2
      = (px - x1) ^ 2 + (py - yb) ^ 2 := Real.sq_sqrt (le_of_lt harg1)
  have hd2sq : Real.sqrt ((px - x2) ^ 2 + (py - yb) ^ 2) ^ 2
      = (px - x2) ^ 2 + (py - yb) ^ 2 := Real.sq_sqrt (le_of_lt harg2)
  have hu : x2 - x1 ≠ 0 := sub_ne_zero.mpr (Ne.symm hx)
  have habs : |x2 - x1| ≠ 0 := abs_ne_zero.mpr hu
  have hbd : beacon_distance (x1, yb) (x2, yb) = |x2 - x1| := beacon_distance_same_y x1 x2 yb
  have hbdne : beacon_distance (x1, yb) (x2, yb) ≠ 0 := by rw [hbd]; exact habs
  have hnum : beacon_distance (x1, yb) (x2, yb) ^ 2
        - Real.sqrt ((px - x2) ^ 2 + (py - yb) ^ 2) ^ 2
        + Real.sqrt ((px - x1) ^ 2 + (py - yb) ^ 2) ^ 2
      = 2 * (x2 - x1) * (px - x1) := by
    rw [hbd, sq_abs, hd1sq, hd2sq]
    ring
  have hA : baseline_A (x1, yb) (x2, yb)
        (Real.sqrt ((px - x1) ^ 2 + (py - yb) ^ 2))
        (Real.sqrt ((px - x2) ^ 2 + (py - yb) ^ 2))
      = (x2 - x1) * (px - x1) / |x2 - x1| := by
    rw [baseline_A, hnum, hbd]
    rw [div_eq_div_iff (by positivity) habs]
    ring
  have hA2 : baseline_A (x1, yb) (x2, yb)
        (Real.sqrt ((px - x1) ^ 2 + (py - yb) ^ 2))
        (Real.sqrt ((px - x2) ^ 2 + (py - yb) ^ 2)) ^ 2
      = (px - x1) ^ 2 := by
    rw [hA, div_pow, mul_pow, sq_abs]
    field_simp
  have hdisc : solver_discriminant (x1, yb) (x2, yb)
        (Real.sqrt ((px - x1) ^ 2 + (py - yb) ^ 2))
        (Real.sqrt ((px - x2) ^ 2 + (py - yb) ^ 2))
      = (py - yb) ^ 2 := by
    rw [solver_discriminant, hA2, hd1sq]
    ring
  have hH : Real.sqrt (solver_discriminant (x1, yb) (x2, yb)
        (Real.sqrt ((px - x1) ^ 2 + (py - yb) ^ 2))
        (Real.sqrt ((px - x2) ^ 2 + (py - yb) ^ 2)))
      = py - yb := by
    rw [hdisc]
    exact Real.sqrt_sq (by linarith)
  have hxcoord : baseline_A (x1, yb) (x2, yb)
        (Real.sqrt ((px - x1) ^ 2 + (py - yb) ^ 2))
        (Real.sqrt ((px - x2) ^ 2 + (py - yb) ^ 2))
        * (x2 - x1) / beacon_distance (x1, yb) (x2, yb) + x1
      = px := by
    rw [hA, hbd]
    field_simp
    nlinarith [abs_mul_abs_self (x2 - x1), sq_nonneg (x2 - x1)]
  rw [calculate_position]
  rw [if_neg (by push_neg; exact ⟨hd1pos, hd2pos⟩)]
  dsimp only
  rw [if_neg hbdne, if_neg (not_lt.mpr (by rw [hdisc]; positivity))]
  rw [if_pos (rfl : yb = yb), hH, hxcoord]
  rw [if_neg (not_lt.mpr (by linarith))]

/-- Claim C3 (amended): the round-trip holds for the geometry the code is
written for — both beacons on the line `y = 0` (as the configured positions
are) and the tag strictly on the positive-`y` side: feeding the true
Euclidean distances recovers the tag position exactly, in particular within
1e-6 m in each coordinate.  (For a baseline off the `x`-axis the code omits
the world-coordinate transform and the claim fails.) -/
theorem claim_C3_roundtrip_restricted (x1 x2 px py : ℝ) (hx : x1 ≠ x2) (hpy : 0 < py) :
    ∃ q : ℝ × ℝ,
      calculate_position (x1, 0) (x2, 0)
          (Real.sqrt ((px - x1) ^ 2 + py ^ 2))
          (Real.sqrt ((px - x2) ^ 2 + py ^ 2))
        = some q
      ∧ |q.1 - px| ≤ 1/1000000 ∧ |q.2 - py| ≤ 1/1000000 := by
  have h := calc_pos_same_y x1 x2 0 px py hx hpy
  rw [sub_zero] at h
  exact ⟨(px, py), h, by norm_num, by norm_num⟩

/-- Claim C3, counterexample: beacons at `(0, 1)` and `(2, 1)` (not
coincident), tag at `P = (1, 2)` strictly above the baseline, true distances
`√2` on both sides: the code returns `(1, 1)` — the height above the
baseline instead of the world `y` — whose `y` differs from `P`'s by 1 m,
far beyond 1e-6. -/
theorem claim_C3_counterexample :
    Real.sqrt ((1 - 0) ^ 2 + (2 - 1) ^ 2) = Real.sqrt 2
    ∧ Real.sqrt ((1 - 2) ^ 2 + (2 - 1) ^ 2) = Real.sqrt 2
    ∧ calculate_position (0, 1) (2, 1) (Real.sqrt 2) (Real.sqrt 2) = some (1, 1)
    ∧ ¬ |(1 : ℝ) - 2| ≤ 1/1000000 := by
  refine ⟨by norm_num, by norm_num, ?_, ?_⟩
  · have h := calc_pos_same_y 0 2 1 1 2 (by norm_num) (by norm_num)
    rw [show ((1 : ℝ) - 0) ^ 2 + (2 - 1) ^ 2 = 2 by norm_num,
      show ((1 : ℝ) - 2) ^ 2 + (2 - 1) ^ 2 = 2 by norm_num,
      show (2 : ℝ) - 1 = 1 by norm_num] at h
    exact h
  · rw [show (1 : ℝ) - 2 = -1 by norm_num, abs_neg, abs_one]
    norm_num

/-- Claim C3, witness: the amended round-trip at beacons `(0,0)`, `(2,0)`
and tag `(1, 1)`. -/
theorem claim_C3_witness :
    ((0 : ℝ) ≠ 2) ∧ (0 : ℝ) < 1
    ∧ ∃ q : ℝ × ℝ,
        calculate_position ((0 : ℝ), 0) (2, 0)
            (Real.sqrt ((1 - 0) ^ 2 + 1 ^ 2)) (Real.sqrt ((1 - 2) ^ 2 + 1 ^ 2))
          = some q
        ∧ |q.1 - 1| ≤ 1/1000000 ∧ |q.2 - 1| ≤ 1/1000000 := by
  exact ⟨by norm_num, by norm_num,
    claim_C3_roundtrip_restricted 0 2 1 1 (by norm_num) (by norm_num)⟩

/-- Claim C4: `calculate_position` returns `none` exactly when a distance is
non-positive, the beacons coincide (`d = 0`, the caught division by zero),
or the discriminant `dist1² - A²` is negative; and — as the claim notes —
the non-intersection cases `dist1 + dist2 < d` and `|dist1 - dist2| > d`
(with the `d ≠ 0` branch reached) do force a negative discriminant.  Every
other input yields a position. -/
theorem claim_C4_unsolvable_iff (p1 p2 : ℝ × ℝ) (dist1 dist2 : ℝ) :
    (calculate_position p1 p2 dist1 dist2 = none
       ↔ dist1 ≤ 0 ∨ dist2 ≤ 0 ∨ beacon_distance p1 p2 = 0
          ∨ solver_discriminant p1 p2 dist1 dist2 < 0)
    ∧ (0 < dist1 → 0 < dist2 → dist1 + dist2 < beacon_distance p1 p2
        → solver_discriminant p1 p2 dist1 dist2 < 0)
    ∧ (0 < dist1 → 0 < dist2 → beacon_distance p1 p2 ≠ 0
        → beacon_distance p1 p2 < |dist1 - dist2|
        → solver_discriminant p1 p2 dist1 dist2 < 0) := by
  refine ⟨?_, ?_, ?_⟩
  · rw [calculate_position]
    by_cases h1 : dist1 ≤ 0 ∨ dist2 ≤ 0
    · rw [if_pos h1]
      refine ⟨fun _ => ?_, fun _ => rfl⟩
      rcases h1 with h | h
      · exact Or.inl h
      · exact Or.inr (Or.inl h)
    · rw [if_neg h1]
      dsimp only
      by_cases h2 : beacon_distance p1 p2 = 0
      · rw [if_pos h2]
        exact ⟨fun _ => Or.inr (Or.inr (Or.inl h2)), fun _ => rfl⟩
      · rw [if_neg h2]
        by_cases h3 : solver_discriminant p1 p2 dist1 dist2 < 0
        · rw [if_pos h3]
          exact ⟨fun _ => Or.inr (Or.inr (Or.inr h3)), fun _ => rfl⟩
        · rw [if_neg h3]
          constructor
          · intro habs
            exact Option.noConfusion habs
          · intro hor
            exfalso
            push_neg at h1
            rcases hor with h | h | h | h
            · exact absurd h (not_le.mpr h1.1)
            · exact absurd h (not_le.mpr h1.2)
            · exact h2 h
            · exact h3 h
  · intro hd1 hd2 hsum
    have hd : 0 < beacon_distance p1 p2 := lt_trans (add_pos hd1 hd2) hsum
    apply disc_neg_of_factor_prod_pos p1 p2 dist1 dist2 (ne_of_gt hd)
    have f1 : 0 < beacon_distance p1 p2 - dist1 - dist2 := by linarith
    have f2 : 0 < beacon_distance p1 p2 - dist1 + dist2 := by linarith
    have f3 : 0 < beacon_distance p1 p2 + dist1 - dist2 := by linarith
    have f4 : 0 < beacon_distance p1 p2 + dist1 + dist2 := by linarith
    exact mul_pos (mul_pos (mul_pos f1 f2) f3) f4
  · intro hd1 hd2 hdne hablt
    have hd : 0 < beacon_distance p1 p2 :=
      lt_of_le_of_ne (beacon_distance_nonneg p1 p2) (Ne.symm hdne)
    apply disc_neg_of_factor_prod_pos p1 p2 dist1 dist2 hdne
    rcases lt_abs.mp hablt with hcase | hcase
    · have f1 : beacon_distance p1 p2 - dist1 - dist2 < 0 := by linarith
      have f2 : beacon_distance p1 p2 - dist1 + dist2 < 0 := by linarith
      have f3 : 0 < beacon_distance p1 p2 + dist1 - dist2 := by linarith
      have f4 : 0 < beacon_distance p1 p2 + dist1 + dist2 := by linarith
      exact mul_pos (mul_pos (mul_pos_of_neg_of_neg f1 f2) f3) f4
    · have f1 : beacon_distance p1 p2 - dist1 - dist2 < 0 := by linarith
      have f2 : 0 < beacon_distance p1 p2 - dist1 + dist2 := by linarith
      have f3 : beacon_distance p1 p2 + dist1 - dist2 < 0 := by linarith
      have f4 : 0 < beacon_distance p1 p2 + dist1 + dist2 := by linarith
      have h12 : (beacon_distance p1 p2 - dist1 - dist2)
          * (beacon_distance p1 p2 - dist1 + dist2) < 0 := mul_neg_of_neg_of_pos f1 f2
      exact mul_pos (mul_pos_of_neg_of_neg h12 f3) f4

/-- Claim C4, witness: at beacons `(0,0)` and `(2,0)` (`d = 2`), distances
`0.5 + 0.5 < 2` (circles too far apart) and `|5 - 1| > 2` (one circle
strictly inside the other) both force a negative discriminant. -/
theorem claim_C4_witness :
    solver_discriminant ((0 : ℝ), 0) (2, 0) (1/2) (1/2) < 0
    ∧ solver_discriminant ((0 : ℝ), 0) (2, 0) 5 1 < 0 := by
  have hbd : beacon_distance ((0 : ℝ), 0) (2, 0) = 2 := by
    rw [beacon_distance_same_y]
    rw [show (2 : ℝ) - 0 = 2 by norm_num]
    exact abs_of_pos (by norm_num)
  constructor
  · exact (claim_C4_unsolvable_iff ((0 : ℝ), 0) (2, 0) (1/2) (1/2)).2.1
      (by norm_num) (by norm_num) (by rw [hbd]; norm_num)
  · refine (claim_C4_unsolvable_iff ((0 : ℝ), 0) (2, 0) 5 1).2.2
      (by norm_num) (by norm_num) (by rw [hbd]; norm_num) ?_
    rw [hbd, show (5 : ℝ) - 1 = 4 by norm_num, abs_of_pos (by norm_num : (0:ℝ) < 4)]
    norm_num

/-- Claim C9: the non-negative-side convention.  Whenever
`calculate_position` returns a position, its `y` coordinate is non-negative
(the code flips a negative `y` to its absolute value). -/
theorem claim_C9_nonneg_side (p1 p2 : ℝ × ℝ) (dist1 dist2 x y : ℝ)
    (h : calculate_position p1 p2 dist1 dist2 = some (x, y)) : 0 ≤ y := by
  rw [calculate_position] at h
  dsimp only at h
  split_ifs at h
  all_goals first
    | exact Option.noConfusion h
    | (injection h with hpair
       injection hpair with hx1 hy1
       subst hy1
       first
         | exact abs_nonneg _
         | exact not_lt.mp (by assumption))

/-- Recording for beacon 2 appends and evicts on the beacon-2 list. -/
theorem add_two_beacon2 (c : DistanceCollector α) (t d : α) :
    (add_distance_measurement c t 2 d).beacon2_distances
      = cleanup_old_measurements c.averaging_window
          (c.beacon2_distances ++ [(t, d)]) t := rfl

/-- Recording for beacon 2 leaves the beacon-1 list unchanged. -/
theorem add_two_beacon1 (c : DistanceCollector α) (t d : α) :
    (add_distance_measurement c t 2 d).beacon1_distances = c.beacon1_distances := rfl

/-- Recording for beacon 2 leaves the averaging window unchanged. -/
theorem add_two_window (c : DistanceCollector α) (t d : α) :
    (add_distance_measurement c t 2 d).averaging_window = c.averaging_window := rfl

/-- A single sample inside the window survives eviction. -/
theorem cleanup_singleton (w now t d : α) (h : ¬ t < now - w) :
    cleanup_old_measurements w [(t, d)] now = [(t, d)] := by
  rw [show cleanup_old_measurements w [(t, d)] now
      = if (t, d).1 < now - w then cleanup_old_measurements w [] now else [(t, d)]
    from rfl]
  exact if_neg h

/-- Averaging a single in-window, fresh sample returns that sample. -/
theorem averaged_from_singleton (timeout w now t d : α)
    (h1 : ¬ t < now - w) (h2 : ¬ timeout < now - t) :
    averaged_from timeout w [(t, d)] now = some d := by
  simp only [averaged_from, cleanup_singleton w now t d h1, List.getLast?_singleton]
  rw [if_neg h2]
  simp

/-- Claim C8: end-to-end scenario.  With a `√2` m sample recorded for each
beacon, both averages return `√2`, and solving at the configured beacon
positions `(0,0)` and `(2,0)` yields a position within 1 mm of `(1, 1)`
in each coordinate (in fact exactly `(1, 1)`). -/
theorem claim_C8_end_to_end :
    get_averaged_distance (5 : ℝ) end_to_end_state 1 0 = some (Real.sqrt 2)
    ∧ get_averaged_distance (5 : ℝ) end_to_end_state 2 0 = some (Real.sqrt 2)
    ∧ ∃ q : ℝ × ℝ,
        calculate_position BEACON1_POSITION BEACON2_POSITION
            (Real.sqrt 2) (Real.sqrt 2) = some q
        ∧ |q.1 - 1| ≤ 1/1000 ∧ |q.2 - 1| ≤ 1/1000 := by
  have hw : end_to_end_state.averaging_window = (2 : ℝ) := rfl
  have hb1 : end_to_end_state.beacon1_distances = [((0 : ℝ), Real.sqrt 2)] := by
    rw [end_to_end_state, add_two_beacon1, add_one_beacon1]
    rw [show (initial_collector (2 : ℝ)).beacon1_distances = [] from rfl,
      show (initial_collector (2 : ℝ)).averaging_window = (2 : ℝ) from rfl,
      List.nil_append]
    exact cleanup_singleton 2 0 0 (Real.sqrt 2) (by norm_num)
  have hb2 : end_to_end_state.beacon2_distances = [((0 : ℝ), Real.sqrt 2)] := by
    rw [end_to_end_state, add_two_beacon2, add_one_beacon2, add_one_window]
    rw [show (initial_collector (2 : ℝ)).beacon2_distances = [] from rfl,
      show (initial_collector (2 : ℝ)).averaging_window = (2 : ℝ) from rfl,
      List.nil_append]
    exact cleanup_singleton 2 0 0 (Real.sqrt 2) (by norm_num)
  refine ⟨?_, ?_, ?_⟩
  · rw [get_one, hw, hb1]
    exact averaged_from_singleton 5 2 0 0 (Real.sqrt 2) (by norm_num) (by norm_num)
  · rw [get_two, hw, hb2]
    exact averaged_from_singleton 5 2 0 0 (Real.sqrt 2) (by norm_num) (by norm_num)
  · refine ⟨(1, 1 - 0), ?_, by norm_num, by norm_num⟩
    rw [BEACON1_POSITION, BEACON2_POSITION]
    have h := calc_pos_same_y 0 2 0 1 1 (by norm_num) (by norm_num)
    rw [show ((1 : ℝ) - 0) ^ 2 + (1 - 0) ^ 2 = 2 by norm_num,
      show ((1 : ℝ) - 2) ^ 2 + (1 - 0) ^ 2 = 2 by norm_num] at h
    exact h

/-- Claim C9, witness: at beacons `(0,0)`, `(2,0)` with both distances 1 the
solver returns `(1, 0)`, whose `y` is non-negative. -/
theorem claim_C9_witness :
    calculate_position ((0 : ℝ), 0) (2, 0) 1 1 = some (1, 0) ∧ (0 : ℝ) ≤ 0 := by
  have heval : calculate_position ((0 : ℝ), 0) (2, 0) 1 1 = some (1, 0) := by
    have hbd : beacon_distance ((0 : ℝ), 0) (2, 0) = 2 := by
      rw [beacon_distance_same_y, show (2 : ℝ) - 0 = 2 by norm_num]
      exact abs_of_pos (by norm_num)
    have hA : baseline_A ((0 : ℝ), 0) (2, 0) 1 1 = 1 := by
      rw [baseline_A, hbd]
      norm_num
    have hdisc : solver_discriminant ((0 : ℝ), 0) (2, 0) 1 1 = 0 := by
      rw [solver_discriminant, hA]
      norm_num
    rw [calculate_position]
    rw [if_neg (by norm_num)]
    dsimp only
    rw [if_neg (by rw [hbd]; norm_num), if_neg (by rw [hdisc]; norm_num)]
    rw [hdisc, Real.sqrt_zero, hA, hbd]
    norm_num
  exact ⟨heval, claim_C9_nonneg_side ((0 : ℝ), 0) (2, 0) 1 1 1 0 heval⟩

end DWM
